import Mathlib

/-!
Verification development for the `haircuts` repository (BanRep haircut-file
URL resolution). The Python sources `app.py` and `src/scraper.py` are embedded
shallowly below: pure string/list computations become Lean functions, the
network existence probe becomes an explicit boolean oracle parameter, and the
module-level catalog dictionary becomes its (decidable) lookup function.
All strings involved are ASCII, so Python's `str.lower`/`str.upper` coincide
with the ASCII case maps used here.
-/

namespace Haircuts

/-- ASCII lowercase of one character, as Python `str.lower` acts on ASCII. -/
def lowerChar (c : Char) : Char :=
  if 65 ≤ c.toNat ∧ c.toNat ≤ 90 then Char.ofNat (c.toNat + 32) else c

/-- ASCII uppercase of one character, as Python `str.upper` acts on ASCII. -/
def upperChar (c : Char) : Char :=
  if 97 ≤ c.toNat ∧ c.toNat ≤ 122 then Char.ofNat (c.toNat - 32) else c

/-- Embedding of Python `str.lower` (ASCII fragment). -/
def pyLower (s : String) : String := ⟨s.data.map lowerChar⟩

/-- Embedding of Python `str.upper` (ASCII fragment); used by `mes_mayus`. -/
def pyUpper (s : String) : String := ⟨s.data.map upperChar⟩

/-- `app.py`: `mes_capitalizado(mes) = mes[:1].upper() + mes[1:].lower()`. -/
def mes_capitalizado (mes : String) : String :=
  match mes.data with
  | [] => ""
  | c :: cs => ⟨upperChar c :: cs.map lowerChar⟩

/-- `app.py`: `mes_mayus(mes) = mes.upper()`. -/
def mes_mayus (mes : String) : String := pyUpper mes

/-- Uppercase hexadecimal digit for `n < 16` (as `urllib.parse.quote` emits). -/
def hexDigit (n : Nat) : Char :=
  if n < 10 then Char.ofNat (48 + n) else Char.ofNat (55 + n)

/-- Percent-encoding of one ASCII character following `urllib.parse.quote`
with the default `safe='/'`: alphanumerics and `_ . - ~ /` stay, everything
else becomes `%XX`. (All strings quoted in `app.py` are ASCII, where one
character is one UTF-8 byte.) -/
def quoteChar (c : Char) : List Char :=
  if c.isAlphanum || c == '_' || c == '.' || c == '-' || c == '~' || c == '/' then [c]
  else ['%', hexDigit (c.toNat / 16), hexDigit (c.toNat % 16)]

/-- Embedding of `urllib.parse.quote` (ASCII fragment, default safe chars). -/
def quote (s : String) : String := ⟨(s.data.map quoteChar).flatten⟩

/-- `app.py`: `BASE_CLOUDFRONT`. -/
def BASE_CLOUDFRONT : String := "https://d1b4gd4m8561gs.cloudfront.net/sites/default/files"

/-- `app.py`: `MESES`, the twelve canonical lowercase month names. -/
def MESES : List String :=
  ["enero", "febrero", "marzo", "abril", "mayo", "junio",
   "julio", "agosto", "septiembre", "octubre", "noviembre", "diciembre"]

/-- `app.py`: `listar_meses()`. -/
def listar_meses : List String := MESES

/-- Loop body of `app.py`'s `_dedup`, carrying the `vistos` set (as a list). -/
def dedupAux (vistos : List String) : List String → List String
  | [] => []
  | x :: xs => if x ∈ vistos then dedupAux vistos xs else x :: dedupAux (x :: vistos) xs

/-- `app.py`: `_dedup(seq)` — drop duplicates, keeping first occurrences. -/
def _dedup (l : List String) : List String := dedupAux [] l

/-- `app.py`: `_urls_legado_por_mes(tipo, anio, mes)` — the legacy URL
variants, in the exact order the Python loops emit them. -/
def _urls_legado_por_mes (tipo : String) (anio : Nat) (mes : String) : List String :=
  let mes_l := pyLower mes
  let mes_cap := mes_capitalizado mes_l
  let mes_up := mes_mayus mes_l
  let exts : List String :=
    if anio = 2019 ∨ anio = 2020 then ["xls"]
    else if anio = 2021 ∨ anio = 2022 ∨ anio = 2023 ∨ anio = 2024 then ["xlsx", "xls"]
    else ["xlsx"]
  let pdfs : List String :=
    if tipo = "haircuts-deuda-externa" then
      (([BASE_CLOUDFRONT, BASE_CLOUDFRONT ++ "/paginas"].flatMap fun base_dir =>
        [base_dir ++ "/HAIRCUT_" ++ mes_up ++ "_" ++ toString anio ++ ".pdf",
         base_dir ++ "/HAIRCUT_" ++ mes_up ++ "_" ++ toString anio ++ ".xls",
         base_dir ++ "/HAIRCUT_" ++ mes_up ++ "_" ++ toString anio ++ ".xlsx"]) ++
       [BASE_CLOUDFRONT ++ "/paginas/" ++ quote ("haircut_" ++ mes_up ++ "_" ++ toString anio ++ ".pdf"),
        BASE_CLOUDFRONT ++ "/" ++ quote ("Haircut_" ++ mes_l ++ "_" ++ toString anio ++ ".pdf"),
        BASE_CLOUDFRONT ++ "/" ++ quote ("Haircuts_" ++ mes_l ++ " " ++ toString anio ++ ".pdf"),
        BASE_CLOUDFRONT ++ "/" ++ quote ("Haircuts " ++ mes_cap ++ " de " ++ toString anio ++ ".pdf")])
    else []
  let principales : List String :=
    ["Haircut", "Haircuts"].flatMap fun pre =>
      exts.flatMap fun ext =>
        let fname := pre ++ " " ++ mes_cap ++ " " ++ toString anio ++ "." ++ ext
        [BASE_CLOUDFRONT ++ "/" ++ quote fname,
         BASE_CLOUDFRONT ++ "/paginas/" ++ quote fname]
  _dedup (pdfs ++ principales)

/-- `app.py`: `_urls_recientes_por_mes(tipo, anio, mes)` — the recent
(`haircuts` / `dcv-haircuts`) structures, one URL per branch. -/
def _urls_recientes_por_mes (tipo : String) (anio : Nat) (mes : String) : List String :=
  let mes_l := pyLower mes
  let tipo_slug := if tipo = "haircuts-deuda-externa" then "deuda-externa" else "repos"
  if tipo = "haircuts-deuda-externa" then
    if anio = 2024 then
      let base := BASE_CLOUDFRONT ++ "/dcv-haircuts-" ++ tipo_slug ++ "-" ++ mes_l ++ "-" ++ toString anio
      if mes_l ∈ (["enero", "febrero", "marzo", "abril"] : List String) then [base ++ ".pdf"]
      else if mes_l = "mayo" then [base ++ "_0.xlsx"]
      else [base ++ ".xlsx"]
    else
      [BASE_CLOUDFRONT ++ "/haircuts-" ++ tipo_slug ++ "-" ++ mes_l ++ "-" ++ toString anio ++ ".xlsx"]
  else
    if anio = 2024 then
      [BASE_CLOUDFRONT ++ "/dcv-haircuts-" ++ tipo_slug ++ "-" ++ mes_l ++ "-" ++ toString anio ++ ".xlsx"]
    else
      [BASE_CLOUDFRONT ++ "/haircuts-" ++ tipo_slug ++ "-" ++ mes_l ++ "-" ++ toString anio ++ ".xlsx"]

/-- `app.py`: the `EXCEPCIONES_UNICAS` dict, as its lookup function on exact
keys `(tipo, anio, mes)`. -/
def EXCEPCIONES_UNICAS (tipo : String) (anio : Nat) (mes : String) : Option (List String) :=
  if tipo = "haircuts-repos" ∧ anio = 2024 ∧ mes = "marzo" then
    some [BASE_CLOUDFRONT ++ "/" ++ quote "haircut2024-03-27.xls"]
  else if tipo = "haircuts-deuda-externa" ∧ anio = 2024 ∧ mes = "enero" then
    some [BASE_CLOUDFRONT ++ "/" ++ quote "Haircut Enero 2024.xlsx"]
  else if tipo = "haircuts-deuda-externa" ∧ anio = 2024 ∧ mes = "marzo" then
    some [BASE_CLOUDFRONT ++ "/haircuts-deuda-externa-marzo-2024.pdf"]
  else if tipo = "haircuts-deuda-externa" ∧ anio = 2024 ∧ mes = "agosto" then
    some [BASE_CLOUDFRONT ++ "/" ++ quote "Haircut-Repos-Agosto-2024.xlsx"]
  else if tipo = "haircuts-deuda-externa" ∧ anio = 2021 ∧ mes = "agosto" then
    some [BASE_CLOUDFRONT ++ "/" ++ quote "Haircuts Agosto de 2021.pdf"]
  else if tipo = "haircuts-deuda-externa" ∧ anio = 2021 ∧ mes = "septiembre" then
    some [BASE_CLOUDFRONT ++ "/" ++ quote "Haircuts Septiembre de 2021.pdf"]
  else if tipo = "haircuts-deuda-externa" ∧ anio = 2022 ∧ mes = "marzo" then
    some [BASE_CLOUDFRONT ++ "/" ++ quote "Marzo 2022-Haircuts Deuda Externa.pdf"]
  else none

/-- `app.py`: `_estructura_deseada(tipo, anio, mes)`. -/
def _estructura_deseada (tipo : String) (anio : Nat) (mes : String) : List String :=
  match EXCEPCIONES_UNICAS tipo anio (pyLower mes) with
  | some l => l
  | none =>
    if 2025 ≤ anio then _urls_recientes_por_mes tipo anio mes
    else if anio = 2024 ∧ pyLower mes ∈ (["mayo", "junio", "julio", "septiembre",
        "octubre", "noviembre", "diciembre"] : List String) then
      _urls_recientes_por_mes tipo anio mes
    else _urls_legado_por_mes tipo anio mes

/-- `app.py`: `construir_diccionario_completo(anio_min, anio_max)`, as the
lookup function of the dict it builds: a key `(tipo, anio, mes)` is present
iff `tipo` is one of the two categories, `anio_min ≤ anio ≤ anio_max` and
`mes ∈ MESES`, and it maps to `_estructura_deseada tipo anio mes`. -/
def construir_diccionario_completo (anio_min anio_max : Nat) (tipo : String)
    (anio : Nat) (mes : String) : Option (List String) :=
  if (tipo = "haircuts-repos" ∨ tipo = "haircuts-deuda-externa") ∧
      anio_min ≤ anio ∧ anio ≤ anio_max ∧ mes ∈ MESES then
    some (_estructura_deseada tipo anio mes)
  else none

/-- `app.py`: `EXCEPCIONES = construir_diccionario_completo()`; `anio_max`
stands for `datetime.date.today().year`. -/
def EXCEPCIONES (anio_max : Nat) (tipo : String) (anio : Nat) (mes : String) :
    Option (List String) :=
  construir_diccionario_completo 2019 anio_max tipo anio mes

/-- `app.py`: `PREFILL_COMPLETO = True`. -/
def PREFILL_COMPLETO : Bool := true

/-- `app.py`: `candidatos_reglas(tipo, anio, mes)` — the generic fallback
rules, in the exact order the Python code appends them. -/
def candidatos_reglas (tipo : String) (anio : Nat) (mes : String) : List String :=
  let mes_l := pyLower mes
  let mes_cap := mes_capitalizado mes_l
  let mes_up := mes_mayus mes_l
  let tipo_slug := if tipo = "haircuts-deuda-externa" then "deuda-externa" else "repos"
  let recientes : List String :=
    if tipo = "haircuts-deuda-externa" then
      if anio = 2024 then
        let base_recent := BASE_CLOUDFRONT ++ "/dcv-haircuts-" ++ tipo_slug ++ "-" ++ mes_l ++ "-" ++ toString anio
        if mes_l ∈ (["enero", "febrero", "marzo", "abril"] : List String) then [base_recent ++ ".pdf"]
        else if mes_l = "mayo" then [base_recent ++ "_0.xlsx"]
        else [base_recent ++ ".xlsx"]
      else
        [BASE_CLOUDFRONT ++ "/haircuts-" ++ tipo_slug ++ "-" ++ mes_l ++ "-" ++ toString anio ++ ".xlsx"]
    else
      if anio = 2024 then
        [BASE_CLOUDFRONT ++ "/dcv-haircuts-" ++ tipo_slug ++ "-" ++ mes_l ++ "-" ++ toString anio ++ ".xlsx"]
      else
        [BASE_CLOUDFRONT ++ "/haircuts-" ++ tipo_slug ++ "-" ++ mes_l ++ "-" ++ toString anio ++ ".xlsx"]
  let legadoRaiz : List String :=
    ["Haircut", "Haircuts"].flatMap fun pre =>
      ["xlsx", "xls"].map fun ext =>
        BASE_CLOUDFRONT ++ "/" ++ quote (pre ++ " " ++ mes_cap ++ " " ++ toString anio ++ "." ++ ext)
  let legadoHU : List String :=
    ["pdf", "xls", "xlsx"].map fun ext =>
      BASE_CLOUDFRONT ++ "/HAIRCUT_" ++ mes_up ++ "_" ++ toString anio ++ "." ++ ext
  let legadoGuion : List String :=
    [BASE_CLOUDFRONT ++ "/" ++ quote ("Haircut_" ++ mes_l ++ "_" ++ toString anio ++ ".pdf"),
     BASE_CLOUDFRONT ++ "/" ++ quote ("Haircuts_" ++ mes_l ++ " " ++ toString anio ++ ".pdf"),
     BASE_CLOUDFRONT ++ "/" ++ quote ("Haircuts " ++ mes_cap ++ " de " ++ toString anio ++ ".pdf")]
  let legadoPaginas : List String :=
    ["Haircut", "Haircuts"].flatMap fun pre =>
      ["xlsx", "xls", "pdf"].map fun ext =>
        BASE_CLOUDFRONT ++ "/paginas/" ++ quote (pre ++ " " ++ mes_cap ++ " " ++ toString anio ++ "." ++ ext)
  let legadoPaginasHU : List String :=
    ["pdf", "xls", "xlsx"].flatMap fun ext =>
      [BASE_CLOUDFRONT ++ "/paginas/HAIRCUT_" ++ mes_up ++ "_" ++ toString anio ++ "." ++ ext,
       BASE_CLOUDFRONT ++ "/paginas/" ++ quote ("haircut_" ++ mes_up ++ "_" ++ toString anio ++ "." ++ ext)]
  _dedup (recientes ++ legadoRaiz ++ legadoHU ++ legadoGuion ++ legadoPaginas ++ legadoPaginasHU)

/-- `app.py`: `construir_candidatos(tipo, anio, mes)`. When the key is in the
prefilled catalog its (deduplicated) entries are returned, and — because
`PREFILL_COMPLETO` is true — returned alone; otherwise the fallback rules are
deduplicated into the list. -/
def construir_candidatos (anio_max : Nat) (tipo : String) (anio : Nat) (mes : String) :
    List String :=
  match EXCEPCIONES anio_max tipo anio (pyLower mes) with
  | some l =>
    if PREFILL_COMPLETO then _dedup l
    else _dedup (l ++ candidatos_reglas tipo anio mes)
  | none => _dedup (candidatos_reglas tipo anio mes)

/-- The probing loop of `app.py`'s `resolver_url`, with the network probe
`validar_existencia` abstracted as the boolean oracle `probe`. The second
component records, in order, exactly the candidates that were probed; the
loop stops at the first candidate the probe reports as existing. -/
def resolverAux (probe : String → Bool) : List String → Option String × List String
  | [] => (none, [])
  | u :: rest =>
    if probe u then (some u, [u])
    else ((resolverAux probe rest).1, u :: (resolverAux probe rest).2)

/-- `app.py`: `resolver_url(tipo, anio, mes)` — returns the first existing
candidate (per `probe`) together with the generated candidate list. -/
def resolver_url (anio_max : Nat) (probe : String → Bool) (tipo : String)
    (anio : Nat) (mes : String) : Option String × List String :=
  let cand := construir_candidatos anio_max tipo anio mes
  ((resolverAux probe cand).1, cand)

/-- The candidates `resolver_url` actually probes (the probe trace). -/
def candidatos_probados (anio_max : Nat) (probe : String → Bool) (tipo : String)
    (anio : Nat) (mes : String) : List String :=
  (resolverAux probe (construir_candidatos anio_max tipo anio mes)).2

end Haircuts

namespace Scraper

/-- One parsed `<a href=...>` element, as the listing-page collaborator hands
it to `src/scraper.py` (`soup.select("a[href]")`): its `href` attribute and
its visible text. -/
structure Ancla where
  href : String
  texto : String
deriving DecidableEq

/-- Origin prefixed to relative hrefs in `src/scraper.py`. -/
def BANREP : String := "https://www.banrep.gov.co"

/-- `src/scraper.py`: `construir_slug_detalle(tipo, mes_largo, year)`. -/
def construir_slug_detalle (tipo mes_largo : String) (year : Nat) : String :=
  "/es/sistemas-pago/dcv/" ++ tipo ++ "-" ++ mes_largo ++ "-" ++ toString year

/-- Python's substring test `needle in hay` on character lists. -/
def subLista (needle : List Char) : List Char → Bool
  | [] => needle.isEmpty
  | c :: rest => needle.isPrefixOf (c :: rest) || subLista needle rest

/-- Python's `needle in hay` on strings. -/
def contiene (hay needle : String) : Bool := subLista needle.data hay.data

/-- Python's `s.startswith(inicio)`. -/
def empiezaCon (s inicio : String) : Bool := inicio.data.isPrefixOf s.data

/-- The anchor-scanning loop of `encontrar_url_detalle_mensual`: first anchor
whose `href` contains the slug wins, made absolute when relative. -/
def buscarAncla (slug_detalle : String) : List Ancla → Option String
  | [] => none
  | a :: rest =>
    if contiene a.href slug_detalle then
      if empiezaCon a.href "http" then some a.href else some (BANREP ++ a.href)
    else buscarAncla slug_detalle rest

/-- `src/scraper.py`: `encontrar_url_detalle_mensual(slug_detalle)`. The
fetched-and-parsed listing page is passed explicitly: `none` models
`_get_soup` failing, `some anclas` its `a[href]` elements in page order. -/
def encontrar_url_detalle_mensual (pagina : Option (List Ancla))
    (slug_detalle : String) : Option String :=
  match pagina with
  | none => none
  | some anclas => buscarAncla slug_detalle anclas

/-- Modelled from the spec: the expected human-readable link title
"<Category label> - <month> <year>" that §4.4 says the discovery resolver
matches against link text. No such title construction exists in
`src/scraper.py`; this definition follows the spec's words and is used only
to compare the spec's described behavior with the code's. -/
def tituloEsperado (label mes : String) (anio : Nat) : String :=
  label ++ " - " ++ mes ++ " " ++ toString anio

end Scraper

namespace Haircuts

theorem dedupAux_sublist (vistos l : List String) : List.Sublist (dedupAux vistos l) l := by
  induction l generalizing vistos with
  | nil => simp [dedupAux]
  | cons x xs ih =>
    rw [dedupAux]
    split
    · exact (ih vistos).trans (List.sublist_cons_self x xs)
    · exact (ih (x :: vistos)).cons₂ x

theorem mem_dedupAux {x : String} : ∀ (vistos l : List String),
    x ∈ dedupAux vistos l ↔ x ∈ l ∧ x ∉ vistos := by
  intro vistos l
  induction l generalizing vistos with
  | nil => simp [dedupAux]
  | cons y ys ih =>
    rw [dedupAux]
    split_ifs with h
    · rw [ih]
      simp only [List.mem_cons]
      constructor
      · rintro ⟨h1, h2⟩
        exact ⟨Or.inr h1, h2⟩
      · rintro ⟨h1 | h1, h2⟩
        · exact absurd (h1 ▸ h) h2
        · exact ⟨h1, h2⟩
    · simp only [List.mem_cons, ih]
      constructor
      · rintro (rfl | ⟨h1, h2⟩)
        · exact ⟨Or.inl rfl, h⟩
        · exact ⟨Or.inr h1, fun hx => h2 (Or.inr hx)⟩
      · rintro ⟨h1 | h1, h2⟩
        · exact Or.inl h1
        · by_cases hxy : x = y
          · exact Or.inl hxy
          · exact Or.inr ⟨h1, by simp [hxy, h2]⟩

theorem nodup_dedupAux : ∀ (vistos l : List String), (dedupAux vistos l).Nodup := by
  intro vistos l
  induction l generalizing vistos with
  | nil => simp [dedupAux]
  | cons y ys ih =>
    rw [dedupAux]
    split_ifs with h
    · exact ih vistos
    · refine List.nodup_cons.mpr ⟨fun hy => ?_, ih (y :: vistos)⟩
      exact ((mem_dedupAux (y :: vistos) ys).mp hy).2 (List.mem_cons_self y vistos)

theorem dedup_nodup (l : List String) : (_dedup l).Nodup := nodup_dedupAux [] l

theorem dedup_sublist (l : List String) : List.Sublist (_dedup l) l := dedupAux_sublist [] l

theorem mem_dedup {x : String} {l : List String} : x ∈ _dedup l ↔ x ∈ l := by
  rw [_dedup, mem_dedupAux]
  simp

theorem dedup_ne_nil {l : List String} (h : l ≠ []) : _dedup l ≠ [] := by
  cases l with
  | nil => exact absurd rfl h
  | cons x xs => simp [_dedup, dedupAux]

theorem toNat_ofNat_of_valid {n : Nat} (h : n.isValidChar) : (Char.ofNat n).toNat = n := by
  simp only [Char.ofNat]
  rw [dif_pos h]
  rfl

theorem lowerChar_toNat (c : Char) :
    (lowerChar c).toNat = if 65 ≤ c.toNat ∧ c.toNat ≤ 90 then c.toNat + 32 else c.toNat := by
  unfold lowerChar
  split_ifs with h
  · exact toNat_ofNat_of_valid (Or.inl (by omega))
  · rfl

theorem lowerChar_eq_self {c : Char} (h : ¬(65 ≤ c.toNat ∧ c.toNat ≤ 90)) : lowerChar c = c := by
  unfold lowerChar
  exact if_neg h

theorem lowerChar_idem (c : Char) : lowerChar (lowerChar c) = lowerChar c := by
  apply lowerChar_eq_self
  rw [lowerChar_toNat]
  split_ifs with h <;> omega

theorem pyLower_idem (s : String) : pyLower (pyLower s) = pyLower s := by
  show String.mk ((s.data.map lowerChar).map lowerChar) = String.mk (s.data.map lowerChar)
  rw [List.map_map]
  exact congrArg String.mk (List.map_congr_left fun c _ => lowerChar_idem c)

end Haircuts

namespace Haircuts

theorem legado_mes_lower (tipo : String) (anio : Nat) (mes : String) :
    _urls_legado_por_mes tipo anio (pyLower mes) = _urls_legado_por_mes tipo anio mes := by
  simp only [_urls_legado_por_mes, pyLower_idem]

theorem recientes_mes_lower (tipo : String) (anio : Nat) (mes : String) :
    _urls_recientes_por_mes tipo anio (pyLower mes) = _urls_recientes_por_mes tipo anio mes := by
  simp only [_urls_recientes_por_mes, pyLower_idem]

theorem reglas_mes_lower (tipo : String) (anio : Nat) (mes : String) :
    candidatos_reglas tipo anio (pyLower mes) = candidatos_reglas tipo anio mes := by
  simp only [candidatos_reglas, pyLower_idem]

theorem estructura_mes_lower (tipo : String) (anio : Nat) (mes : String) :
    _estructura_deseada tipo anio (pyLower mes) = _estructura_deseada tipo anio mes := by
  simp only [_estructura_deseada, pyLower_idem, recientes_mes_lower, legado_mes_lower]

theorem construir_mes_lower (anio_max : Nat) (tipo : String) (anio : Nat) (mes : String) :
    construir_candidatos anio_max tipo anio (pyLower mes) =
      construir_candidatos anio_max tipo anio mes := by
  simp only [construir_candidatos, pyLower_idem, reglas_mes_lower]

end Haircuts

namespace Haircuts

theorem construir_eq_catalogo (anio_max : Nat) (tipo : String) (anio : Nat) (mes : String)
    (htipo : tipo = "haircuts-repos" ∨ tipo = "haircuts-deuda-externa")
    (h1 : 2019 ≤ anio) (h2 : anio ≤ anio_max) (hmes : pyLower mes ∈ MESES) :
    construir_candidatos anio_max tipo anio mes =
      _dedup (_estructura_deseada tipo anio (pyLower mes)) := by
  unfold construir_candidatos EXCEPCIONES construir_diccionario_completo
  rw [if_pos ⟨htipo, h1, h2, hmes⟩]
  rfl

theorem construir_eq_reglas (anio_max : Nat) (tipo : String) (anio : Nat) (mes : String)
    (hmes : pyLower mes ∉ MESES) :
    construir_candidatos anio_max tipo anio mes = _dedup (candidatos_reglas tipo anio mes) := by
  unfold construir_candidatos EXCEPCIONES construir_diccionario_completo
  rw [if_neg]
  rintro ⟨-, -, -, h⟩
  exact hmes h

theorem excepciones_unicas_singleton {tipo : String} {anio : Nat} {mes : String}
    {l : List String} (h : EXCEPCIONES_UNICAS tipo anio mes = some l) :
    ∃ u, l = [u] := by
  unfold EXCEPCIONES_UNICAS at h
  split_ifs at h <;> exact ⟨_, (Option.some_inj.mp h).symm⟩

theorem recientes_singleton (tipo : String) (anio : Nat) (mes : String) :
    ∃ u, _urls_recientes_por_mes tipo anio mes = [u] := by
  simp only [_urls_recientes_por_mes]
  split_ifs <;> exact ⟨_, rfl⟩

theorem legado_ne_nil (tipo : String) (anio : Nat) (mes : String) :
    _urls_legado_por_mes tipo anio mes ≠ [] := by
  simp only [_urls_legado_por_mes]
  apply dedup_ne_nil
  intro hnil
  have h2 := (List.append_eq_nil.mp hnil).2
  rw [List.flatMap_eq_nil_iff] at h2
  have h3 := h2 "Haircut" (by simp)
  rw [List.flatMap_eq_nil_iff] at h3
  revert h3
  split_ifs <;> intro h3
  · simpa using h3 "xls" (by simp)
  · simpa using h3 "xlsx" (by simp)
  · simpa using h3 "xlsx" (by simp)

theorem estructura_ne_nil (tipo : String) (anio : Nat) (mes : String) :
    _estructura_deseada tipo anio mes ≠ [] := by
  unfold _estructura_deseada
  cases hE : EXCEPCIONES_UNICAS tipo anio (pyLower mes) with
  | some l =>
    obtain ⟨u, rfl⟩ := excepciones_unicas_singleton hE
    simp
  | none =>
    split_ifs
    · obtain ⟨u, hu⟩ := recientes_singleton tipo anio mes
      simp [hu]
    · obtain ⟨u, hu⟩ := recientes_singleton tipo anio mes
      simp [hu]
    · exact legado_ne_nil tipo anio mes

theorem reglas_ne_nil (tipo : String) (anio : Nat) (mes : String) :
    candidatos_reglas tipo anio mes ≠ [] := by
  simp only [candidatos_reglas]
  apply dedup_ne_nil
  intro hnil
  have h1 := (List.append_eq_nil.mp hnil).1
  revert h1
  split_ifs <;> simp

theorem legado_nodup (tipo : String) (anio : Nat) (mes : String) :
    (_urls_legado_por_mes tipo anio mes).Nodup := by
  simp only [_urls_legado_por_mes]
  exact dedup_nodup _

theorem recientes_nodup (tipo : String) (anio : Nat) (mes : String) :
    (_urls_recientes_por_mes tipo anio mes).Nodup := by
  obtain ⟨u, hu⟩ := recientes_singleton tipo anio mes
  simp [hu]

theorem estructura_nodup (tipo : String) (anio : Nat) (mes : String) :
    (_estructura_deseada tipo anio mes).Nodup := by
  unfold _estructura_deseada
  cases hE : EXCEPCIONES_UNICAS tipo anio (pyLower mes) with
  | some l =>
    obtain ⟨u, rfl⟩ := excepciones_unicas_singleton hE
    simp
  | none =>
    split_ifs
    · exact recientes_nodup tipo anio mes
    · exact recientes_nodup tipo anio mes
    · exact legado_nodup tipo anio mes

theorem reglas_nodup (tipo : String) (anio : Nat) (mes : String) :
    (candidatos_reglas tipo anio mes).Nodup := by
  simp only [candidatos_reglas]
  exact dedup_nodup _

theorem construir_nodup (anio_max : Nat) (tipo : String) (anio : Nat) (mes : String) :
    (construir_candidatos anio_max tipo anio mes).Nodup := by
  unfold construir_candidatos
  cases EXCEPCIONES anio_max tipo anio (pyLower mes) with
  | some l => exact dedup_nodup l
  | none => exact dedup_nodup _

theorem meses_pyLower {mes : String} (hmes : mes ∈ MESES) : pyLower mes = mes := by
  fin_cases hmes <;> rfl

end Haircuts

namespace Haircuts

theorem resolverAux_eq_some (probe : String → Bool) :
    ∀ (l : List String) (u : String), (resolverAux probe l).1 = some u →
      ∃ l₁ l₂, l = l₁ ++ u :: l₂ ∧ (∀ v ∈ l₁, probe v = false) ∧ probe u = true ∧
        (resolverAux probe l).2 = l₁ ++ [u] := by
  intro l
  induction l with
  | nil =>
    intro u h
    simp [resolverAux] at h
  | cons x xs ih =>
    intro u h
    by_cases hp : probe x = true
    · have hx : x = u := by
        have : (some x : Option String) = some u := by
          simpa [resolverAux, hp] using h
        exact Option.some_inj.mp this
      subst hx
      exact ⟨[], xs, rfl, by simp, hp, by simp [resolverAux, hp]⟩
    · have hp' : probe x = false := by simpa using hp
      have h' : (resolverAux probe xs).1 = some u := by
        simpa [resolverAux, hp'] using h
      obtain ⟨l₁, l₂, he, hall, hu, htr⟩ := ih u h'
      refine ⟨x :: l₁, l₂, by simp [he], ?_, hu, ?_⟩
      · intro v hv
        rcases List.mem_cons.mp hv with rfl | hv
        · exact hp'
        · exact hall v hv
      · simp [resolverAux, hp', htr]

theorem resolverAux_false_trace : ∀ l : List String,
    (resolverAux (fun _ => false) l).2 = l := by
  intro l
  induction l with
  | nil => rfl
  | cons x xs ih => simp [resolverAux, ih]

end Haircuts

namespace Scraper

theorem buscarAncla_eq_some (slug : String) :
    ∀ (anclas : List Ancla) (u : String), buscarAncla slug anclas = some u →
      ∃ a l₁ l₂, anclas = l₁ ++ a :: l₂ ∧ contiene a.href slug = true ∧
        (∀ b ∈ l₁, contiene b.href slug = false) ∧
        u = (if empiezaCon a.href "http" then a.href else BANREP ++ a.href) := by
  intro anclas
  induction anclas with
  | nil =>
    intro u h
    simp [buscarAncla] at h
  | cons a rest ih =>
    intro u h
    by_cases hc : contiene a.href slug = true
    · refine ⟨a, [], rest, rfl, hc, by simp, ?_⟩
      by_cases hh : empiezaCon a.href "http" = true
      · have : (some a.href : Option String) = some u := by
          simpa [buscarAncla, hc, hh] using h
        rw [if_pos hh]
        exact (Option.some_inj.mp this).symm
      · have hh' : empiezaCon a.href "http" = false := by simpa using hh
        have : (some (BANREP ++ a.href) : Option String) = some u := by
          simpa [buscarAncla, hc, hh'] using h
        rw [if_neg (by simp [hh'])]
        exact (Option.some_inj.mp this).symm
    · have hc' : contiene a.href slug = false := by simpa using hc
      have h' : buscarAncla slug rest = some u := by
        simpa [buscarAncla, hc'] using h
      obtain ⟨a', l₁, l₂, he, hm, hall, hu⟩ := ih u h'
      refine ⟨a', a :: l₁, l₂, by simp [he], hm, ?_, hu⟩
      intro b hb
      rcases List.mem_cons.mp hb with rfl | hb
      · exact hc'
      · exact hall b hb

end Scraper

namespace Haircuts

/-- C1: for both categories, any year and any canonical month, if `resolver_url`
returns a found URL `u`, then `u` occurs in the candidate list returned
alongside it, every candidate before `u` is one the probe reports as not
existing, the probe reports `u` as existing, and probing short-circuits at
`u`: the probed candidates are exactly the prefix of the list up to and
including `u`, so no later candidate is probed. -/
theorem resolver_url_primer_existente (anio_max : Nat) (probe : String → Bool)
    (tipo : String) (anio : Nat) (mes : String) (u : String)
    (htipo : tipo = "haircuts-repos" ∨ tipo = "haircuts-deuda-externa")
    (hmes : mes ∈ MESES)
    (h : (resolver_url anio_max probe tipo anio mes).1 = some u) :
    ∃ l₁ l₂, (resolver_url anio_max probe tipo anio mes).2 = l₁ ++ u :: l₂ ∧
      (∀ v ∈ l₁, probe v = false) ∧ probe u = true ∧
      candidatos_probados anio_max probe tipo anio mes = l₁ ++ [u] := by
  have h' : (resolverAux probe (construir_candidatos anio_max tipo anio mes)).1 = some u := h
  obtain ⟨l₁, l₂, he, hall, hu, htr⟩ := resolverAux_eq_some probe _ u h'
  exact ⟨l₁, l₂, he, hall, hu, htr⟩

/-- Witness for C1 at category repos, year 2025, month enero, with a probe
that reports every URL as existing. -/
theorem resolver_url_primer_existente_testigo :
    ∃ l₁ l₂, (resolver_url 2026 (fun _ => true) "haircuts-repos" 2025 "enero").2 =
        l₁ ++ "https://d1b4gd4m8561gs.cloudfront.net/sites/default/files/haircuts-repos-enero-2025.xlsx" :: l₂ ∧
      (∀ v ∈ l₁, (fun _ : String => true) v = false) ∧
      (fun _ : String => true) "https://d1b4gd4m8561gs.cloudfront.net/sites/default/files/haircuts-repos-enero-2025.xlsx" = true ∧
      candidatos_probados 2026 (fun _ => true) "haircuts-repos" 2025 "enero" =
        l₁ ++ ["https://d1b4gd4m8561gs.cloudfront.net/sites/default/files/haircuts-repos-enero-2025.xlsx"] :=
  resolver_url_primer_existente 2026 (fun _ => true) "haircuts-repos" 2025 "enero"
    "https://d1b4gd4m8561gs.cloudfront.net/sites/default/files/haircuts-repos-enero-2025.xlsx"
    (Or.inl rfl) (by decide) (by decide)

/-- C6: for both categories, every year in the supported range
`[2019 .. anio_max]` (with `anio_max` today's year) and every canonical
month, both the catalog rules (`_estructura_deseada`) and the builder
(`construir_candidatos`) yield a non-empty candidate list. -/
theorem catalogo_total (anio_max : Nat) (tipo : String) (anio : Nat) (mes : String)
    (htipo : tipo = "haircuts-repos" ∨ tipo = "haircuts-deuda-externa")
    (h1 : 2019 ≤ anio) (h2 : anio ≤ anio_max) (hmes : mes ∈ MESES) :
    _estructura_deseada tipo anio mes ≠ [] ∧
      construir_candidatos anio_max tipo anio mes ≠ [] := by
  have hlow : pyLower mes = mes := meses_pyLower hmes
  refine ⟨estructura_ne_nil tipo anio mes, ?_⟩
  rw [construir_eq_catalogo anio_max tipo anio mes htipo h1 h2 (by rw [hlow]; exact hmes), hlow]
  exact dedup_ne_nil (estructura_ne_nil tipo anio mes)

/-- Witness for C6 at category deuda externa, year 2022, month febrero. -/
theorem catalogo_total_testigo :
    _estructura_deseada "haircuts-deuda-externa" 2022 "febrero" ≠ [] ∧
      construir_candidatos 2026 "haircuts-deuda-externa" 2022 "febrero" ≠ [] :=
  catalogo_total 2026 "haircuts-deuda-externa" 2022 "febrero" (Or.inr rfl)
    (by decide) (by decide) (by decide)

/-- C7: no candidate list produced by the catalog rules, the fallback
generator or the builder contains the same URL twice, and `_dedup` keeps
exactly the members of its input in first-seen order (its output is a
sublist of the input with the same members). -/
theorem sin_duplicados (anio_max : Nat) (tipo : String) (anio : Nat) (mes : String)
    (l : List String) :
    (_estructura_deseada tipo anio mes).Nodup ∧
      (candidatos_reglas tipo anio mes).Nodup ∧
      (construir_candidatos anio_max tipo anio mes).Nodup ∧
      (_dedup l).Nodup ∧ List.Sublist (_dedup l) l ∧ (∀ x, x ∈ _dedup l ↔ x ∈ l) :=
  ⟨estructura_nodup tipo anio mes, reglas_nodup tipo anio mes,
   construir_nodup anio_max tipo anio mes, dedup_nodup l, dedup_sublist l,
   fun _ => mem_dedup⟩

/-- C10: the builder is insensitive to the letter case of the month string:
`construir_candidatos` on `mes` equals `construir_candidatos` on the
lowercased `mes`, for every category, year and month string. -/
theorem insensibilidad_mayusculas_mes (anio_max : Nat) (tipo : String) (anio : Nat)
    (mes : String) :
    construir_candidatos anio_max tipo anio mes =
      construir_candidatos anio_max tipo anio (pyLower mes) :=
  (construir_mes_lower anio_max tipo anio mes).symm

end Haircuts

namespace Haircuts

/-- C2 (counterexample): for the unknown month string "foo" the builder does
NOT fail: it returns a non-empty candidate list, and the resolver (here with
a probe that reports nothing as existing) probes all 23 of its candidates,
i.e. network access is attempted instead of a fast `InvalidInput` failure. -/
theorem mes_desconocido_contraejemplo :
    construir_candidatos 2026 "haircuts-repos" 2025 "foo" ≠ [] ∧
      (candidatos_probados 2026 (fun _ => false) "haircuts-repos" 2025 "foo").length = 23 := by
  decide

/-- C2 (amended): an unknown month string is not validated at all: the
builder silently falls through to the fallback rules (which embed the unknown
string into the URLs), the resulting list is non-empty, and resolution
probes every one of those candidates (shown with the all-failing probe). -/
theorem mes_desconocido_sin_validacion (anio_max : Nat) (tipo : String) (anio : Nat)
    (mes : String) (hmes : pyLower mes ∉ MESES) :
    construir_candidatos anio_max tipo anio mes = _dedup (candidatos_reglas tipo anio mes) ∧
      construir_candidatos anio_max tipo anio mes ≠ [] ∧
      candidatos_probados anio_max (fun _ => false) tipo anio mes =
        construir_candidatos anio_max tipo anio mes := by
  have he := construir_eq_reglas anio_max tipo anio mes hmes
  refine ⟨he, ?_, ?_⟩
  · rw [he]
    exact dedup_ne_nil (reglas_ne_nil tipo anio mes)
  · exact resolverAux_false_trace _

/-- Witness for the amended C2 at month "foo". -/
theorem mes_desconocido_sin_validacion_testigo :
    construir_candidatos 2026 "haircuts-repos" 2025 "foo" =
        _dedup (candidatos_reglas "haircuts-repos" 2025 "foo") ∧
      construir_candidatos 2026 "haircuts-repos" 2025 "foo" ≠ [] ∧
      candidatos_probados 2026 (fun _ => false) "haircuts-repos" 2025 "foo" =
        construir_candidatos 2026 "haircuts-repos" 2025 "foo" :=
  mes_desconocido_sin_validacion 2026 "haircuts-repos" 2025 "foo" (by decide)

/-- C3 (counterexample): for deuda externa, 2024, enero the candidate list is
the single exception-override URL `Haircut%20Enero%202024.xlsx`, which does
not end in `.pdf` and is not the transition-era PDF template path. -/
theorem deuda_enero_2024_contraejemplo :
    construir_candidatos 2026 "haircuts-deuda-externa" 2024 "enero" =
      ["https://d1b4gd4m8561gs.cloudfront.net/sites/default/files/Haircut%20Enero%202024.xlsx"] ∧
    List.isSuffixOf (String.data ".pdf")
      (String.data
        "https://d1b4gd4m8561gs.cloudfront.net/sites/default/files/Haircut%20Enero%202024.xlsx") =
      false ∧
    "https://d1b4gd4m8561gs.cloudfront.net/sites/default/files/Haircut%20Enero%202024.xlsx" ≠
      BASE_CLOUDFRONT ++ "/haircuts-deuda-externa-enero-2024.pdf" ∧
    "https://d1b4gd4m8561gs.cloudfront.net/sites/default/files/Haircut%20Enero%202024.xlsx" ≠
      BASE_CLOUDFRONT ++ "/dcv-haircuts-deuda-externa-enero-2024.pdf" := by
  decide

/-- C3 (amended): for deuda externa, 2024, enero the exception override takes
precedence over the transition-era rules: `EXCEPCIONES_UNICAS` maps this key
to the single root `.xlsx` URL, and the builder returns exactly that list. -/
theorem deuda_enero_2024_override :
    EXCEPCIONES_UNICAS "haircuts-deuda-externa" 2024 "enero" =
      some ["https://d1b4gd4m8561gs.cloudfront.net/sites/default/files/Haircut%20Enero%202024.xlsx"] ∧
    construir_candidatos 2026 "haircuts-deuda-externa" 2024 "enero" =
      ["https://d1b4gd4m8561gs.cloudfront.net/sites/default/files/Haircut%20Enero%202024.xlsx"] := by
  decide

/-- C4: evaluation at the failing input. For repos 2024 the prefixed
current-era rule does fire for mayo (first conjunct), but for agosto — a
month the claim and the code's own docstrings cover — the builder instead
returns legacy-pattern candidates: its first entry is the legacy root
`.xlsx` and the documented `dcv-haircuts-repos-agosto-2024.xlsx` appears
nowhere in the list ("agosto" is missing from the month set in
`_estructura_deseada`). -/
theorem repos_agosto_2024_divergencia :
    construir_candidatos 2026 "haircuts-repos" 2024 "mayo" =
      ["https://d1b4gd4m8561gs.cloudfront.net/sites/default/files/dcv-haircuts-repos-mayo-2024.xlsx"] ∧
    (construir_candidatos 2026 "haircuts-repos" 2024 "agosto").head? =
      some "https://d1b4gd4m8561gs.cloudfront.net/sites/default/files/Haircut%20Agosto%202024.xlsx" ∧
    "https://d1b4gd4m8561gs.cloudfront.net/sites/default/files/dcv-haircuts-repos-agosto-2024.xlsx" ∉
      construir_candidatos 2026 "haircuts-repos" 2024 "agosto" := by
  decide

/-- C5 (counterexample): for the in-range period repos/2025/enero — which has
no entry in `EXCEPCIONES_UNICAS` — the builder returns only the catalog
output: the fallback generator produces `Haircut%20Enero%202025.xlsx` (a
candidate not produced by the catalog), yet that candidate does not appear
in the builder's list at all, contradicting "fallback candidates appear at
the end". -/
theorem respaldo_no_anexado_contraejemplo :
    construir_candidatos 2026 "haircuts-repos" 2025 "enero" =
      ["https://d1b4gd4m8561gs.cloudfront.net/sites/default/files/haircuts-repos-enero-2025.xlsx"] ∧
    "https://d1b4gd4m8561gs.cloudfront.net/sites/default/files/Haircut%20Enero%202025.xlsx" ∈
      candidatos_reglas "haircuts-repos" 2025 "enero" ∧
    "https://d1b4gd4m8561gs.cloudfront.net/sites/default/files/Haircut%20Enero%202025.xlsx" ∉
      construir_candidatos 2026 "haircuts-repos" 2025 "enero" := by
  decide

/-- C5 (amended): because `PREFILL_COMPLETO` is true and the prefilled
catalog covers every in-range key, the builder returns the deduplicated
catalog output alone for every in-range period — the fallback generator's
output is never appended. -/
theorem catalogo_exclusivo (anio_max : Nat) (tipo : String) (anio : Nat) (mes : String)
    (htipo : tipo = "haircuts-repos" ∨ tipo = "haircuts-deuda-externa")
    (h1 : 2019 ≤ anio) (h2 : anio ≤ anio_max) (hmes : pyLower mes ∈ MESES) :
    construir_candidatos anio_max tipo anio mes =
      _dedup (_estructura_deseada tipo anio (pyLower mes)) :=
  construir_eq_catalogo anio_max tipo anio mes htipo h1 h2 hmes

/-- Witness for the amended C5 at repos/2025/enero. -/
theorem catalogo_exclusivo_testigo :
    construir_candidatos 2026 "haircuts-repos" 2025 "enero" =
      _dedup (_estructura_deseada "haircuts-repos" 2025 (pyLower "enero")) :=
  catalogo_exclusivo 2026 "haircuts-repos" 2025 "enero" (Or.inl rfl)
    (by decide) (by decide) (by decide)

/-- C8: whenever `EXCEPCIONES_UNICAS` holds an override list for a key, the
builder's output both begins with that list and equals it exactly — the
override is final, nothing (in particular no fallback output) follows it. -/
theorem excepcion_unica_final (anio_max : Nat) (tipo : String) (anio : Nat)
    (mes : String) (l : List String) (hmax : 2024 ≤ anio_max)
    (h : EXCEPCIONES_UNICAS tipo anio mes = some l) :
    (construir_candidatos anio_max tipo anio mes).take l.length = l ∧
      construir_candidatos anio_max tipo anio mes = l := by
  unfold EXCEPCIONES_UNICAS at h
  split_ifs at h with h1 h2 h3 h4 h5 h6 h7
  · obtain ⟨rfl, rfl, rfl⟩ := h1
    obtain rfl := Option.some_inj.mp h
    have he : construir_candidatos anio_max "haircuts-repos" 2024 "marzo" =
        [BASE_CLOUDFRONT ++ "/" ++ quote "haircut2024-03-27.xls"] := by
      rw [construir_eq_catalogo _ _ _ _ (Or.inl rfl) (by norm_num) (by omega) (by decide)]
      decide
    exact ⟨by rw [he, List.take_length], he⟩
  · obtain ⟨rfl, rfl, rfl⟩ := h2
    obtain rfl := Option.some_inj.mp h
    have he : construir_candidatos anio_max "haircuts-deuda-externa" 2024 "enero" =
        [BASE_CLOUDFRONT ++ "/" ++ quote "Haircut Enero 2024.xlsx"] := by
      rw [construir_eq_catalogo _ _ _ _ (Or.inr rfl) (by norm_num) (by omega) (by decide)]
      decide
    exact ⟨by rw [he, List.take_length], he⟩
  · obtain ⟨rfl, rfl, rfl⟩ := h3
    obtain rfl := Option.some_inj.mp h
    have he : construir_candidatos anio_max "haircuts-deuda-externa" 2024 "marzo" =
        [BASE_CLOUDFRONT ++ "/haircuts-deuda-externa-marzo-2024.pdf"] := by
      rw [construir_eq_catalogo _ _ _ _ (Or.inr rfl) (by norm_num) (by omega) (by decide)]
      decide
    exact ⟨by rw [he, List.take_length], he⟩
  · obtain ⟨rfl, rfl, rfl⟩ := h4
    obtain rfl := Option.some_inj.mp h
    have he : construir_candidatos anio_max "haircuts-deuda-externa" 2024 "agosto" =
        [BASE_CLOUDFRONT ++ "/" ++ quote "Haircut-Repos-Agosto-2024.xlsx"] := by
      rw [construir_eq_catalogo _ _ _ _ (Or.inr rfl) (by norm_num) (by omega) (by decide)]
      decide
    exact ⟨by rw [he, List.take_length], he⟩
  · obtain ⟨rfl, rfl, rfl⟩ := h5
    obtain rfl := Option.some_inj.mp h
    have he : construir_candidatos anio_max "haircuts-deuda-externa" 2021 "agosto" =
        [BASE_CLOUDFRONT ++ "/" ++ quote "Haircuts Agosto de 2021.pdf"] := by
      rw [construir_eq_catalogo _ _ _ _ (Or.inr rfl) (by norm_num) (by omega) (by decide)]
      decide
    exact ⟨by rw [he, List.take_length], he⟩
  · obtain ⟨rfl, rfl, rfl⟩ := h6
    obtain rfl := Option.some_inj.mp h
    have he : construir_candidatos anio_max "haircuts-deuda-externa" 2021 "septiembre" =
        [BASE_CLOUDFRONT ++ "/" ++ quote "Haircuts Septiembre de 2021.pdf"] := by
      rw [construir_eq_catalogo _ _ _ _ (Or.inr rfl) (by norm_num) (by omega) (by decide)]
      decide
    exact ⟨by rw [he, List.take_length], he⟩
  · obtain ⟨rfl, rfl, rfl⟩ := h7
    obtain rfl := Option.some_inj.mp h
    have he : construir_candidatos anio_max "haircuts-deuda-externa" 2022 "marzo" =
        [BASE_CLOUDFRONT ++ "/" ++ quote "Marzo 2022-Haircuts Deuda Externa.pdf"] := by
      rw [construir_eq_catalogo _ _ _ _ (Or.inr rfl) (by norm_num) (by omega) (by decide)]
      decide
    exact ⟨by rw [he, List.take_length], he⟩

/-- Witness for C8 at the deuda externa / 2022 / marzo override. -/
theorem excepcion_unica_final_testigo :
    (construir_candidatos 2026 "haircuts-deuda-externa" 2022 "marzo").take
        [BASE_CLOUDFRONT ++ "/" ++ quote "Marzo 2022-Haircuts Deuda Externa.pdf"].length =
      [BASE_CLOUDFRONT ++ "/" ++ quote "Marzo 2022-Haircuts Deuda Externa.pdf"] ∧
    construir_candidatos 2026 "haircuts-deuda-externa" 2022 "marzo" =
      [BASE_CLOUDFRONT ++ "/" ++ quote "Marzo 2022-Haircuts Deuda Externa.pdf"] :=
  excepcion_unica_final 2026 "haircuts-deuda-externa" 2022 "marzo"
    [BASE_CLOUDFRONT ++ "/" ++ quote "Marzo 2022-Haircuts Deuda Externa.pdf"]
    (by decide) (by decide)

end Haircuts

namespace Scraper

/-- C9 (counterexample): the discovery resolver selects an anchor by slug
containment in its `href`, not by link-text title matching: on a page whose
sole anchor has visible text "Ver" — which does not case-insensitively equal
the spec-modelled expected title "Haircuts Repos - enero 2025" — the code
still returns that anchor's (absolutized) URL, with no confirmation fetch
involved. -/
theorem descubrimiento_contraejemplo :
    encontrar_url_detalle_mensual
        (some [⟨"/es/sistemas-pago/dcv/haircuts-repos-enero-2025", "Ver"⟩])
        (construir_slug_detalle "haircuts-repos" "enero" 2025) =
      some "https://www.banrep.gov.co/es/sistemas-pago/dcv/haircuts-repos-enero-2025" ∧
    Haircuts.pyLower "Ver" ≠
      Haircuts.pyLower (tituloEsperado "Haircuts Repos" "enero" 2025) := by
  decide

/-- C9 (amended): `encontrar_url_detalle_mensual` scans the single listing
page's anchors in order and returns, absolutized with the site origin when
relative, the href of the first anchor whose href CONTAINS the slug (link
text plays no role); when the page fetch fails it returns none, and no
confirmation fetch exists. -/
theorem descubrimiento_por_href (anclas : List Ancla) (slug u : String)
    (h : encontrar_url_detalle_mensual (some anclas) slug = some u) :
    (∃ a l₁ l₂, anclas = l₁ ++ a :: l₂ ∧ contiene a.href slug = true ∧
      (∀ b ∈ l₁, contiene b.href slug = false) ∧
      u = (if empiezaCon a.href "http" then a.href else BANREP ++ a.href)) ∧
    encontrar_url_detalle_mensual none slug = none :=
  ⟨buscarAncla_eq_some slug anclas u h, rfl⟩

/-- Witness for the amended C9 on a one-anchor page. -/
theorem descubrimiento_por_href_testigo :
    (∃ a l₁ l₂,
      ([⟨"/es/sistemas-pago/dcv/haircuts-repos-enero-2025", "Ver"⟩] : List Ancla) =
        l₁ ++ a :: l₂ ∧
      contiene a.href "/es/sistemas-pago/dcv/haircuts-repos-enero-2025" = true ∧
      (∀ b ∈ l₁, contiene b.href "/es/sistemas-pago/dcv/haircuts-repos-enero-2025" = false) ∧
      "https://www.banrep.gov.co/es/sistemas-pago/dcv/haircuts-repos-enero-2025" =
        (if empiezaCon a.href "http" then a.href else BANREP ++ a.href)) ∧
    encontrar_url_detalle_mensual none "/es/sistemas-pago/dcv/haircuts-repos-enero-2025" =
      none :=
  descubrimiento_por_href [⟨"/es/sistemas-pago/dcv/haircuts-repos-enero-2025", "Ver"⟩]
    "/es/sistemas-pago/dcv/haircuts-repos-enero-2025"
    "https://www.banrep.gov.co/es/sistemas-pago/dcv/haircuts-repos-enero-2025" (by decide)

end Scraper
